import Mathlib

/-!
Verification of the ISO 6336 gear strength calculation engine
(`src/agents/gear_calculations.py`).

Modelling conventions:
* Python floats are idealised as real numbers `ℝ`; Python ints as `ℤ`.
* Python raises on `x / 0.0` (ZeroDivisionError), on `math.sqrt` of a
  negative argument and on `math.log` of a non-positive argument
  (ValueError: math domain error).  Fallible arithmetic is therefore
  embedded in `Except PyError`.
* The textual fields of a `CalculationStep` (description, formula,
  calculation, notes) are kept, but Python f-string interpolation of
  numeric values into those strings is not modelled: the surrounding
  template text is stored instead.  No property below depends on the
  string contents.
-/

set_option maxHeartbeats 1000000

/-- The two runtime errors Python can raise in this module:
`ZeroDivisionError` from float division by zero, and
`ValueError: math domain error` from `math.sqrt` / `math.log`. -/
inductive PyError where
  | zeroDivisionError : PyError
  | mathDomainError : PyError
deriving DecidableEq

/-- Python float division: `x / y`, raising `ZeroDivisionError` when `y = 0`. -/
noncomputable def pyDiv (x y : ℝ) : Except PyError ℝ :=
  if y = 0 then Except.error PyError.zeroDivisionError else Except.ok (x / y)

/-- Python `math.sqrt`: raises `ValueError: math domain error` on negatives. -/
noncomputable def pySqrt (x : ℝ) : Except PyError ℝ :=
  if x < 0 then Except.error PyError.mathDomainError else Except.ok (Real.sqrt x)

/-- Python `math.log`: raises `ValueError: math domain error` on `x ≤ 0`. -/
noncomputable def pyLog (x : ℝ) : Except PyError ℝ :=
  if x ≤ 0 then Except.error PyError.mathDomainError else Except.ok (Real.log x)

/-- `math.radians`: degrees to radians. -/
noncomputable def radians (x : ℝ) : ℝ :=
  x * Real.pi / 180

/-- Python `int()` applied to a float: truncation toward zero. -/
noncomputable def pyIntTrunc (x : ℝ) : ℤ :=
  if 0 ≤ x then ⌊x⌋ else ⌈x⌉

theorem Except_bind_ok {α β : Type} (a : α) (f : α → Except PyError β) :
    ((Except.ok a : Except PyError α) >>= f) = f a := rfl

theorem Except_bind_error {α β : Type} (e : PyError) (f : α → Except PyError β) :
    ((Except.error e : Except PyError α) >>= f) = Except.error e := rfl

theorem Except_pure {α : Type} (a : α) : (pure a : Except PyError α) = Except.ok a := rfl

/-- `GearGeometry` dataclass. -/
structure GearGeometry where
  module : ℝ
  teeth_pinion : ℤ
  teeth_gear : ℤ
  face_width : ℝ
  pressure_angle : ℝ

namespace GearGeometry

/-- `gear_ratio` property: `teeth_gear / teeth_pinion` (Python true division). -/
noncomputable def gear_ratio (g : GearGeometry) : ℝ :=
  (g.teeth_gear : ℝ) / (g.teeth_pinion : ℝ)

/-- `pitch_diameter_pinion` property. -/
noncomputable def pitch_diameter_pinion (g : GearGeometry) : ℝ :=
  g.module * (g.teeth_pinion : ℝ)

/-- `pitch_diameter_gear` property. -/
noncomputable def pitch_diameter_gear (g : GearGeometry) : ℝ :=
  g.module * (g.teeth_gear : ℝ)

/-- `center_distance` property. -/
noncomputable def center_distance (g : GearGeometry) : ℝ :=
  (g.pitch_diameter_pinion + g.pitch_diameter_gear) / 2

end GearGeometry

/-- `LoadConditions` dataclass. -/
structure LoadConditions where
  input_torque : ℝ
  input_speed : ℝ
  power : ℝ

/-- `MaterialProperties` dataclass. -/
structure MaterialProperties where
  name : String
  allowable_bending : ℝ
  allowable_contact : ℝ
  elastic_modulus : ℝ
  poisson_ratio : ℝ
  density : ℝ

/-- `CalculationStep` dataclass. -/
structure CalculationStep where
  step_number : ℕ
  description : String
  formula : String
  vars : List (String × ℝ)  -- source field name `variables` is a Lean keyword
  calculation : String
  result : ℝ
  unit : String
  notes : String

/-- `ISO6336Calculator`: the mutable state is the ledger list and the
step counter; methods are modelled by explicit state passing. -/
structure ISO6336Calculator where
  calculation_steps : List CalculationStep
  step_counter : ℕ

/-- `ISO6336Calculator.__init__`: empty ledger, counter 0. -/
def emptyCalculator : ISO6336Calculator := ⟨[], 0⟩

namespace ISO6336Calculator

/-- `add_calculation_step`: increments the counter, then appends a step
carrying the new counter value as its `step_number`. -/
def add_calculation_step (c : ISO6336Calculator) (description formula : String)
    (vars : List (String × ℝ)) (calculation : String) (result : ℝ)
    (unit : String) (notes : String) : ISO6336Calculator :=
  let n := c.step_counter + 1
  ⟨c.calculation_steps ++ [⟨n, description, formula, vars, calculation, result, unit, notes⟩], n⟩

/-- `calculate_tangential_force`: pitch radius, then `Ft = T·1000 / r₁`.
The radius step is recorded before the (possibly raising) division. -/
noncomputable def calculate_tangential_force (c : ISO6336Calculator)
    (geometry : GearGeometry) (load : LoadConditions) :
    Except PyError (ISO6336Calculator × ℝ) := do
  let r_pinion := geometry.pitch_diameter_pinion / 2
  let c := c.add_calculation_step "구동기어 피치원 반경 계산" "r₁ = d₁/2 = (mn × z₁)/2"
    [("mn", geometry.module), ("z₁", (geometry.teeth_pinion : ℝ)),
     ("d₁", geometry.pitch_diameter_pinion)]
    "r₁ = d₁/2" r_pinion "mm" "피치원 반경은 토크를 접선력으로 변환하는 기준"
  let Ft ← pyDiv (load.input_torque * 1000) r_pinion
  let c := c.add_calculation_step "접선력 계산 (기본 동력 전달 관계)" "Ft = T/r₁"
    [("T", load.input_torque), ("r₁", r_pinion)]
    "Ft = (T × 1000)/r₁" Ft "N" "접선력은 기어 치에 작용하는 주요 하중"
  return (c, Ft)

end ISO6336Calculator

/-- C1: with a positive pinion pitch diameter, `calculate_tangential_force`
returns the torque converted to N·mm divided by the pinion pitch radius. -/
theorem tangential_force_formula (c : ISO6336Calculator) (geometry : GearGeometry)
    (load : LoadConditions) (hd : 0 < geometry.pitch_diameter_pinion) :
    ∃ c₂, c.calculate_tangential_force geometry load =
      Except.ok (c₂, load.input_torque * 1000 / (geometry.pitch_diameter_pinion / 2)) := by
  have hr : geometry.pitch_diameter_pinion / 2 ≠ 0 := by positivity
  have hdiv : pyDiv (load.input_torque * 1000) (geometry.pitch_diameter_pinion / 2) =
      Except.ok (load.input_torque * 1000 / (geometry.pitch_diameter_pinion / 2)) := by
    rw [pyDiv, if_neg hr]
  exact ⟨_, by unfold ISO6336Calculator.calculate_tangential_force; simp only []; rw [hdiv]; rfl⟩

/-- Witness for C1: module 2 mm, 20 pinion teeth, 20 N·m torque gives
`Ft = 20·1000/(40/2) = 1000 N`. -/
theorem tangential_force_formula_witness :
    0 < (GearGeometry.mk 2 20 100 20 20).pitch_diameter_pinion ∧
      ∃ c₂, emptyCalculator.calculate_tangential_force (GearGeometry.mk 2 20 100 20 20)
        (LoadConditions.mk 20 1000 0) = Except.ok (c₂, 20 * 1000 / ((GearGeometry.mk 2 20 100 20 20).pitch_diameter_pinion / 2)) :=
  ⟨by norm_num [GearGeometry.pitch_diameter_pinion],
    tangential_force_formula emptyCalculator (GearGeometry.mk 2 20 100 20 20)
      (LoadConditions.mk 20 1000 0)
      (by norm_num [GearGeometry.pitch_diameter_pinion])⟩

/-- C6: with a zero pinion pitch diameter, `calculate_tangential_force`
raises (Python `ZeroDivisionError`) instead of returning NaN/Inf. -/
theorem tangential_force_zero_diameter_raises (c : ISO6336Calculator)
    (geometry : GearGeometry) (load : LoadConditions)
    (hd : geometry.pitch_diameter_pinion = 0) :
    c.calculate_tangential_force geometry load =
      Except.error PyError.zeroDivisionError := by
  have hr0 : geometry.pitch_diameter_pinion / 2 = 0 := by rw [hd]; norm_num
  have hdiv : pyDiv (load.input_torque * 1000) (geometry.pitch_diameter_pinion / 2) =
      Except.error PyError.zeroDivisionError := by rw [pyDiv, if_pos hr0]
  unfold ISO6336Calculator.calculate_tangential_force
  simp only []
  rw [hdiv]
  rfl

/-- Witness for C6: a geometry with zero pinion teeth has pitch diameter 0
and the call raises. -/
theorem tangential_force_zero_diameter_raises_witness :
    (GearGeometry.mk 2 0 40 20 20).pitch_diameter_pinion = 0 ∧
      emptyCalculator.calculate_tangential_force (GearGeometry.mk 2 0 40 20 20)
        (LoadConditions.mk 20 1000 0) = Except.error PyError.zeroDivisionError :=
  ⟨by norm_num [GearGeometry.pitch_diameter_pinion],
    tangential_force_zero_diameter_raises emptyCalculator (GearGeometry.mk 2 0 40 20 20)
      (LoadConditions.mk 20 1000 0) (by norm_num [GearGeometry.pitch_diameter_pinion])⟩

namespace ISO6336Calculator

/-- `calculate_form_factor` (ISO 6336-3): Lewis form factor `Y_Fa`,
piecewise in the tooth count, followed by one ledger record.  No branch
can raise: the branches that divide by `z` only apply for `z ≥ 12`. -/
noncomputable def calculate_form_factor (c : ISO6336Calculator) (teeth : ℤ) :
    ISO6336Calculator × ℝ :=
  let Y_Fa : ℝ :=
    if teeth < 12 then 0.18 + 0.15 * (teeth : ℝ) / 12
    else if teeth ≤ 25 then 0.154 - 0.912 / (teeth : ℝ)
    else if teeth ≤ 100 then 0.175 - 0.841 / (teeth : ℝ)
    else 0.175 - 84.1 / (teeth : ℝ)
  let c := c.add_calculation_step "치형계수 Y_Fa 계산"
    (if teeth ≤ 25 then "Y_Fa = f(z) [ISO 6336-3 Table]" else "Y_Fa = 0.175 - 84.1/z (z>25)")
    [("z", (teeth : ℝ))]
    (if teeth > 25 then "Y_Fa = 0.175 - 84.1/z" else "표준값 조회") Y_Fa "-"
    "치형계수는 치의 형상에 따른 응력 집중 계수"
  (c, Y_Fa)

/-- `calculate_stress_correction_factor` (ISO 6336-3): `Y_Sa` from
`math.log` (which raises on a non-positive argument), then one record. -/
noncomputable def calculate_stress_correction_factor (c : ISO6336Calculator)
    (teeth : ℤ) : Except PyError (ISO6336Calculator × ℝ) := do
  let Y_Sa ←
    if teeth ≤ 25 then do
      let l ← pyLog (teeth : ℝ)
      pure (1.2 + 0.13 * l)
    else do
      let l ← pyLog ((teeth : ℝ) / 25)
      pure (1.5 + 0.25 * l)
  let c := c.add_calculation_step "응력보정계수 Y_Sa 계산"
    (if teeth ≤ 25 then "Y_Sa = 1.2 + 0.13×ln(z) (z≤25)" else "Y_Sa = 1.5 + 0.25×ln(z/25) (z>25)")
    [("z", (teeth : ℝ))]
    (if teeth ≤ 25 then "Y_Sa = 1.2 + 0.13×ln(z)" else "Y_Sa = 1.5 + 0.25×ln(z/25)") Y_Sa "-"
    "응력보정계수는 치근부 응력 분포 보정값"
  return (c, Y_Sa)

end ISO6336Calculator

/-- The form factor bands exactly as the specification lists them, with
the spec's stated boundary membership. -/
noncomputable def formFactorSpec (z : ℤ) : ℝ :=
  if z < 12 then 0.18 + 0.15 * (z : ℝ) / 12
  else if 12 ≤ z ∧ z ≤ 25 then 0.154 - 0.912 / (z : ℝ)
  else if 25 < z ∧ z ≤ 100 then 0.175 - 0.841 / (z : ℝ)
  else 0.175 - 84.1 / (z : ℝ)

/-- C2: for every tooth count `z ≥ 1` the computed form factor equals the
piecewise value of the spec, boundary membership included; moreover the
adjacent-band formulas genuinely disagree at the documented boundary
tooth counts 12, 25 and 100 (the intentional discontinuities). -/
theorem form_factor_matches_spec :
    (∀ (c : ISO6336Calculator) (z : ℤ), 1 ≤ z →
        (c.calculate_form_factor z).2 = formFactorSpec z) ∧
      (emptyCalculator.calculate_form_factor 12).2 ≠ 0.18 + 0.15 * 12 / 12 ∧
      (emptyCalculator.calculate_form_factor 25).2 ≠ 0.175 - 0.841 / 25 ∧
      (emptyCalculator.calculate_form_factor 100).2 ≠ 0.175 - 84.1 / 100 := by
  refine ⟨?_, ?_, ?_, ?_⟩
  · intro c z _
    simp only [ISO6336Calculator.calculate_form_factor, formFactorSpec]
    split_ifs with h1 h2 h3 h4 h5 h6 h7 <;> first | rfl | omega
  · norm_num [ISO6336Calculator.calculate_form_factor]
  · norm_num [ISO6336Calculator.calculate_form_factor]
  · norm_num [ISO6336Calculator.calculate_form_factor]

/-- Witness for C2: the 20-tooth pinion of the spec scenario lies in the
middle band and both sides evaluate to `0.154 - 0.912/20`. -/
theorem form_factor_matches_spec_witness :
    (1 : ℤ) ≤ 20 ∧ (emptyCalculator.calculate_form_factor 20).2 = formFactorSpec 20 :=
  ⟨by norm_num, form_factor_matches_spec.1 emptyCalculator 20 (by norm_num)⟩

/-- C7: the stress correction factor raises a math-domain error for
`z ≤ 0` and otherwise follows the two logarithmic bands. -/
theorem stress_correction_factor_spec (c : ISO6336Calculator) (z : ℤ) :
    (z ≤ 0 → c.calculate_stress_correction_factor z =
        Except.error PyError.mathDomainError) ∧
      (0 < z → z ≤ 25 → ∃ c₂, c.calculate_stress_correction_factor z =
        Except.ok (c₂, 1.2 + 0.13 * Real.log ((z : ℤ) : ℝ))) ∧
      (25 < z → ∃ c₂, c.calculate_stress_correction_factor z =
        Except.ok (c₂, 1.5 + 0.25 * Real.log (((z : ℤ) : ℝ) / 25))) := by
  refine ⟨?_, ?_, ?_⟩
  · intro hz
    have h25 : z ≤ 25 := by omega
    have hcast : (z : ℝ) ≤ 0 := by exact_mod_cast hz
    have hlog : pyLog (z : ℝ) = Except.error PyError.mathDomainError := by
      rw [pyLog, if_pos hcast]
    unfold ISO6336Calculator.calculate_stress_correction_factor
    simp only []
    rw [if_pos h25, hlog]
    rfl
  · intro hpos h25
    have hcast : ¬((z : ℝ) ≤ 0) := by
      push_neg
      exact_mod_cast hpos
    have hlog : pyLog (z : ℝ) = Except.ok (Real.log ((z : ℤ) : ℝ)) := by
      rw [pyLog, if_neg hcast]
    exact ⟨_, by
      unfold ISO6336Calculator.calculate_stress_correction_factor
      simp only []
      rw [if_pos h25, hlog]
      rfl⟩
  · intro h25
    have h25n : ¬(z ≤ 25) := by omega
    have hcast : ¬(((z : ℤ) : ℝ) / 25 ≤ 0) := by
      push_neg
      have : (25 : ℝ) < (z : ℝ) := by exact_mod_cast h25
      positivity
    have hlog : pyLog (((z : ℤ) : ℝ) / 25) =
        Except.ok (Real.log (((z : ℤ) : ℝ) / 25)) := by
      rw [pyLog, if_neg hcast]
    exact ⟨_, by
      unfold ISO6336Calculator.calculate_stress_correction_factor
      simp only []
      rw [if_neg h25n, hlog]
      rfl⟩

/-- Witness for C7: the call raises at `z = -1`, takes the first band at
`z = 20` and the second band at `z = 30`. -/
theorem stress_correction_factor_spec_witness :
    emptyCalculator.calculate_stress_correction_factor (-1) =
        Except.error PyError.mathDomainError ∧
      (∃ c₂, emptyCalculator.calculate_stress_correction_factor 20 =
        Except.ok (c₂, 1.2 + 0.13 * Real.log (((20 : ℤ) : ℝ)))) ∧
      (∃ c₂, emptyCalculator.calculate_stress_correction_factor 30 =
        Except.ok (c₂, 1.5 + 0.25 * Real.log (((30 : ℤ) : ℝ) / 25))) :=
  ⟨(stress_correction_factor_spec emptyCalculator (-1)).1 (by norm_num),
   (stress_correction_factor_spec emptyCalculator 20).2.1 (by norm_num) (by norm_num),
   (stress_correction_factor_spec emptyCalculator 30).2.2 (by norm_num)⟩

/-- The elastic coefficient `Z_E` exactly as computed inside
`calculate_contact_stress`: both members use the same `elastic_modulus`
and the Poisson ratio is the hard-coded literal `0.3`
(`(1 - 0.3**2)/E + (1 - 0.3**2)/E` under `1/(π·_)` and `math.sqrt`). -/
noncomputable def elasticZE (material : MaterialProperties) : Except PyError ℝ := do
  let a ← pyDiv (1 - (0.3 : ℝ) ^ 2) material.elastic_modulus
  let b ← pyDiv (1 - (0.3 : ℝ) ^ 2) material.elastic_modulus
  let r ← pyDiv 1 (Real.pi * (a + b))
  pySqrt r

/-- Evaluation of `elasticZE` when the elastic modulus is nonzero and the
radicand denominator is positive. -/
theorem elasticZE_ok (material : MaterialProperties)
    (hE : material.elastic_modulus ≠ 0)
    (hpos : 0 < Real.pi * ((1 - (0.3 : ℝ) ^ 2) / material.elastic_modulus +
      (1 - (0.3 : ℝ) ^ 2) / material.elastic_modulus)) :
    elasticZE material = Except.ok (Real.sqrt (1 / (Real.pi *
      ((1 - (0.3 : ℝ) ^ 2) / material.elastic_modulus +
       (1 - (0.3 : ℝ) ^ 2) / material.elastic_modulus)))) := by
  have h1 : pyDiv (1 - (0.3 : ℝ) ^ 2) material.elastic_modulus =
      Except.ok ((1 - (0.3 : ℝ) ^ 2) / material.elastic_modulus) := by
    rw [pyDiv, if_neg hE]
  have h2 : pyDiv 1 (Real.pi * ((1 - (0.3 : ℝ) ^ 2) / material.elastic_modulus +
      (1 - (0.3 : ℝ) ^ 2) / material.elastic_modulus)) =
      Except.ok (1 / (Real.pi * ((1 - (0.3 : ℝ) ^ 2) / material.elastic_modulus +
        (1 - (0.3 : ℝ) ^ 2) / material.elastic_modulus))) := by
    rw [pyDiv, if_neg (ne_of_gt hpos)]
  have h3 : ¬(1 / (Real.pi * ((1 - (0.3 : ℝ) ^ 2) / material.elastic_modulus +
      (1 - (0.3 : ℝ) ^ 2) / material.elastic_modulus)) < 0) := by
    push_neg
    positivity
  unfold elasticZE
  rw [h1]
  simp only [Except_bind_ok]
  rw [h2]
  simp only [Except_bind_ok]
  rw [pySqrt, if_neg h3]

namespace ISO6336Calculator

/-- `calculate_contact_stress` (ISO 6336-2): zone factor, elastic
coefficient, contact-ratio factor and the Hertz combination, each followed
by its ledger record. -/
noncomputable def calculate_contact_stress (c : ISO6336Calculator)
    (geometry : GearGeometry) (material : MaterialProperties) (Ft : ℝ) :
    Except PyError (ISO6336Calculator × ℝ) := do
  let alpha_rad := radians geometry.pressure_angle
  let zhArg ← pyDiv (2 * Real.cos alpha_rad) (Real.sin alpha_rad)
  let Z_H ← pySqrt zhArg
  let c := c.add_calculation_step "구역계수 Z_H 계산" "Z_H = √(2×cos(αn)/sin(αn))"
    [("αn", geometry.pressure_angle), ("cos(αn)", Real.cos alpha_rad),
     ("sin(αn)", Real.sin alpha_rad)]
    "Z_H = √(2×cos(αn)/sin(αn))" Z_H "-" "구역계수는 치면 접촉 형상에 따른 계수"
  let Z_E ← elasticZE material
  let c := c.add_calculation_step "탄성계수 Z_E 계산 (강재-강재)"
    "Z_E = √(1/(π×((1-ν₁²)/E₁ + (1-ν₂²)/E₂)))"
    [("ν", 0.3), ("E", material.elastic_modulus), ("π", Real.pi)]
    "Z_E = √(1/(π×2×(1-0.3²)/E))" Z_E "√MPa" "동일 재료이므로 탄성계수 동일 적용"
  let Z_epsilon := Real.sqrt 0.9
  let c := c.add_calculation_step "접촉비계수 Z_ε 계산"
    "Z_ε = √εα (εα ≈ 1.8 for standard gears)" [("εα", 1.8)]
    "Z_ε = √(1.8×0.5) = √0.9" Z_epsilon "-" "표준 외치차 기어의 일반적인 접촉비 적용"
  let u := geometry.gear_ratio
  let hertzArg ← pyDiv (Ft * (u + 1))
    (geometry.face_width * geometry.pitch_diameter_pinion * u)
  let hertzRoot ← pySqrt hertzArg
  let sigma_H := Z_H * Z_E * Z_epsilon * hertzRoot
  let c := c.add_calculation_step "Hertz 접촉응력 계산 (ISO 6336-2)"
    "σH = Z_H × Z_E × Z_ε × √(Ft×(u+1)/(b×d₁×u))"
    [("Z_H", Z_H), ("Z_E", Z_E), ("Z_ε", Z_epsilon), ("Ft", Ft), ("u", u),
     ("b", geometry.face_width), ("d₁", geometry.pitch_diameter_pinion)]
    "σH = Z_H×Z_E×Z_ε×√(Ft×(u+1)/(b×d₁×u))" sigma_H "MPa"
    "접촉응력은 두 기어에서 동일한 값"
  return (c, sigma_H)

end ISO6336Calculator

/-- C3 fails on the code: for a material whose `poisson_ratio` is 0.25 the
elastic coefficient computed by the source is not
`√(1/(π·(2·(1-ν²)/E)))` with `ν` the material's `poisson_ratio`, because
the source hard-codes `ν = 0.3` in the formula. -/
theorem elastic_coefficient_claim_counterexample :
    elasticZE (MaterialProperties.mk "SCM415 침탄강" 280 750 206 0.25 7850) ≠
      Except.ok (Real.sqrt (1 / (Real.pi * (2 *
        (1 - (MaterialProperties.mk "SCM415 침탄강" 280 750 206 0.25 7850).poisson_ratio ^ 2) /
        (MaterialProperties.mk "SCM415 침탄강" 280 750 206 0.25 7850).elastic_modulus)))) := by
  have hsum : (1 - (0.3 : ℝ) ^ 2) / (206 : ℝ) + (1 - (0.3 : ℝ) ^ 2) / (206 : ℝ) = 91 / 10300 := by
    norm_num
  have hpos : 0 < Real.pi * ((1 - (0.3 : ℝ) ^ 2) / (206 : ℝ) + (1 - (0.3 : ℝ) ^ 2) / (206 : ℝ)) := by
    rw [hsum]
    positivity
  have hval := elasticZE_ok (MaterialProperties.mk "SCM415 침탄강" 280 750 206 0.25 7850)
    (by norm_num) hpos
  rw [hval]
  intro h
  have h2 := Except.ok.inj h
  have hlt : (1 : ℝ) / (Real.pi * (2 * (1 - (0.25 : ℝ) ^ 2) / 206)) <
      1 / (Real.pi * ((1 - (0.3 : ℝ) ^ 2) / (206 : ℝ) + (1 - (0.3 : ℝ) ^ 2) / (206 : ℝ))) := by
    have hπ := Real.pi_pos
    apply one_div_lt_one_div_of_lt
    · rw [hsum]
      positivity
    · have harg : ((1 - (0.3 : ℝ) ^ 2) / (206 : ℝ) + (1 - (0.3 : ℝ) ^ 2) / (206 : ℝ)) <
          2 * (1 - (0.25 : ℝ) ^ 2) / 206 := by norm_num
      exact mul_lt_mul_of_pos_left harg hπ
  have hle : (0 : ℝ) ≤ 1 / (Real.pi * (2 * (1 - (0.25 : ℝ) ^ 2) / 206)) := by
    have hπ := Real.pi_pos
    positivity
  have := Real.sqrt_lt_sqrt hle hlt
  rw [h2] at this
  exact lt_irrefl _ this

/-- C3 amended: the elastic coefficient computed inside
`calculate_contact_stress` equals `√(1/(π·(2·(1-ν²)/E)))` with `ν` the
hard-coded constant 0.3 (not the material's `poisson_ratio`) and `E` the
material's `elastic_modulus` used for both members. -/
theorem elastic_coefficient_formula_fixed_nu (material : MaterialProperties)
    (hE : 0 < material.elastic_modulus) (_hν₁ : 0 < material.poisson_ratio)
    (_hν₂ : material.poisson_ratio < 0.5) :
    elasticZE material = Except.ok (Real.sqrt (1 /
      (Real.pi * (2 * (1 - (0.3 : ℝ) ^ 2) / material.elastic_modulus)))) := by
  have hx : 0 < (1 - (0.3 : ℝ) ^ 2) / material.elastic_modulus :=
    div_pos (by norm_num) hE
  have hpos : 0 < Real.pi * ((1 - (0.3 : ℝ) ^ 2) / material.elastic_modulus +
      (1 - (0.3 : ℝ) ^ 2) / material.elastic_modulus) :=
    mul_pos Real.pi_pos (by linarith)
  rw [elasticZE_ok material (ne_of_gt hE) hpos]
  have hsum : (1 - (0.3 : ℝ) ^ 2) / material.elastic_modulus +
      (1 - (0.3 : ℝ) ^ 2) / material.elastic_modulus =
      2 * (1 - (0.3 : ℝ) ^ 2) / material.elastic_modulus := by ring
  rw [hsum]

/-- Witness for the amended C3: the factory's SCM415 material
(`E = 206`, `ν = 0.3`). -/
theorem elastic_coefficient_formula_fixed_nu_witness :
    0 < (MaterialProperties.mk "SCM415 침탄강" 280 750 206 0.3 7850).elastic_modulus ∧
      0 < (MaterialProperties.mk "SCM415 침탄강" 280 750 206 0.3 7850).poisson_ratio ∧
      (MaterialProperties.mk "SCM415 침탄강" 280 750 206 0.3 7850).poisson_ratio < 0.5 ∧
      elasticZE (MaterialProperties.mk "SCM415 침탄강" 280 750 206 0.3 7850) =
        Except.ok (Real.sqrt (1 / (Real.pi * (2 * (1 - (0.3 : ℝ) ^ 2) / 206)))) :=
  ⟨by norm_num, by norm_num, by norm_num,
    elastic_coefficient_formula_fixed_nu
      (MaterialProperties.mk "SCM415 침탄강" 280 750 206 0.3 7850)
      (by norm_num) (by norm_num) (by norm_num)⟩

/-- C4 fails as stated: the claim's hypotheses (positive face width,
pitch diameter and ratio, `sin α ≠ 0`, `Ft ≥ 0`) do not guarantee that a
value is returned.  At `pressure_angle = 120°` the zone-factor radicand
`2·cos α/sin α` is negative, `math.sqrt` raises, and
`calculate_contact_stress` raises instead of returning the formula. -/
theorem contact_stress_claim_counterexample :
    (0 < (GearGeometry.mk 1 20 40 10 120).face_width ∧
      0 < (GearGeometry.mk 1 20 40 10 120).pitch_diameter_pinion ∧
      0 < (GearGeometry.mk 1 20 40 10 120).gear_ratio ∧
      Real.sin (radians (GearGeometry.mk 1 20 40 10 120).pressure_angle) ≠ 0 ∧
      (0 : ℝ) ≤ 100) ∧
    emptyCalculator.calculate_contact_stress (GearGeometry.mk 1 20 40 10 120)
      (MaterialProperties.mk "SCM415 침탄강" 280 750 206 0.3 7850) 100 =
      Except.error PyError.mathDomainError := by
  have hang : radians (GearGeometry.mk 1 20 40 10 120).pressure_angle =
      Real.pi - Real.pi / 3 := by
    show radians 120 = Real.pi - Real.pi / 3
    unfold radians
    ring
  have hsin : Real.sin (radians (GearGeometry.mk 1 20 40 10 120).pressure_angle) =
      Real.sqrt 3 / 2 := by
    rw [hang, Real.sin_pi_sub, Real.sin_pi_div_three]
  have hcos : Real.cos (radians (GearGeometry.mk 1 20 40 10 120).pressure_angle) =
      -(1 / 2) := by
    rw [hang, Real.cos_pi_sub, Real.cos_pi_div_three]
  have hsinpos : 0 < Real.sin (radians (GearGeometry.mk 1 20 40 10 120).pressure_angle) := by
    rw [hsin]
    have : 0 < Real.sqrt 3 := Real.sqrt_pos.mpr (by norm_num)
    linarith
  have hsin_ne : Real.sin (radians (GearGeometry.mk 1 20 40 10 120).pressure_angle) ≠ 0 :=
    ne_of_gt hsinpos
  have hneg : 2 * Real.cos (radians (GearGeometry.mk 1 20 40 10 120).pressure_angle) /
      Real.sin (radians (GearGeometry.mk 1 20 40 10 120).pressure_angle) < 0 := by
    apply div_neg_of_neg_of_pos
    · rw [hcos]
      norm_num
    · exact hsinpos
  have hdiv1 : pyDiv (2 * Real.cos (radians (GearGeometry.mk 1 20 40 10 120).pressure_angle))
      (Real.sin (radians (GearGeometry.mk 1 20 40 10 120).pressure_angle)) =
      Except.ok (2 * Real.cos (radians (GearGeometry.mk 1 20 40 10 120).pressure_angle) /
        Real.sin (radians (GearGeometry.mk 1 20 40 10 120).pressure_angle)) := by
    rw [pyDiv, if_neg hsin_ne]
  have hsq1 : pySqrt (2 * Real.cos (radians (GearGeometry.mk 1 20 40 10 120).pressure_angle) /
      Real.sin (radians (GearGeometry.mk 1 20 40 10 120).pressure_angle)) =
      Except.error PyError.mathDomainError := by
    rw [pySqrt, if_pos hneg]
  refine ⟨⟨by norm_num, by norm_num [GearGeometry.pitch_diameter_pinion],
    by norm_num [GearGeometry.gear_ratio], hsin_ne, by norm_num⟩, ?_⟩
  unfold ISO6336Calculator.calculate_contact_stress
  simp only []
  rw [hdiv1]
  simp only [Except_bind_ok]
  rw [hsq1]
  rfl

/-- C4 amended: with the additional hypotheses that the zone-factor
radicand `2·cos α/sin α` is nonnegative and the elastic modulus is
positive, `calculate_contact_stress` returns
`Z_H · Z_E · Z_ε · √(Ft·(u+1)/(b·d₁·u))` with `Z_H = √(2·cos α/sin α)`,
`Z_E` the code's fixed-ν elastic coefficient and `Z_ε = √0.9`. -/
theorem contact_stress_formula (c : ISO6336Calculator) (geometry : GearGeometry)
    (material : MaterialProperties) (Ft : ℝ)
    (hb : 0 < geometry.face_width) (hd : 0 < geometry.pitch_diameter_pinion)
    (hu : 0 < geometry.gear_ratio)
    (hsin : Real.sin (radians geometry.pressure_angle) ≠ 0)
    (hFt : 0 ≤ Ft)
    (hE : 0 < material.elastic_modulus)
    (hzh : 0 ≤ 2 * Real.cos (radians geometry.pressure_angle) /
      Real.sin (radians geometry.pressure_angle)) :
    ∃ c₂, c.calculate_contact_stress geometry material Ft = Except.ok (c₂,
      Real.sqrt (2 * Real.cos (radians geometry.pressure_angle) /
        Real.sin (radians geometry.pressure_angle)) *
      Real.sqrt (1 / (Real.pi * ((1 - (0.3 : ℝ) ^ 2) / material.elastic_modulus +
        (1 - (0.3 : ℝ) ^ 2) / material.elastic_modulus))) *
      Real.sqrt 0.9 *
      Real.sqrt (Ft * (geometry.gear_ratio + 1) /
        (geometry.face_width * geometry.pitch_diameter_pinion * geometry.gear_ratio))) := by
  have hdiv1 : pyDiv (2 * Real.cos (radians geometry.pressure_angle))
      (Real.sin (radians geometry.pressure_angle)) =
      Except.ok (2 * Real.cos (radians geometry.pressure_angle) /
        Real.sin (radians geometry.pressure_angle)) := by
    rw [pyDiv, if_neg hsin]
  have hsq1 : pySqrt (2 * Real.cos (radians geometry.pressure_angle) /
      Real.sin (radians geometry.pressure_angle)) =
      Except.ok (Real.sqrt (2 * Real.cos (radians geometry.pressure_angle) /
        Real.sin (radians geometry.pressure_angle))) := by
    rw [pySqrt, if_neg (not_lt.mpr hzh)]
  have hx : 0 < (1 - (0.3 : ℝ) ^ 2) / material.elastic_modulus :=
    div_pos (by norm_num) hE
  have hpos : 0 < Real.pi * ((1 - (0.3 : ℝ) ^ 2) / material.elastic_modulus +
      (1 - (0.3 : ℝ) ^ 2) / material.elastic_modulus) :=
    mul_pos Real.pi_pos (by linarith)
  have hze := elasticZE_ok material (ne_of_gt hE) hpos
  have hden : geometry.face_width * geometry.pitch_diameter_pinion * geometry.gear_ratio ≠ 0 := by
    positivity
  have hdiv2 : pyDiv (Ft * (geometry.gear_ratio + 1))
      (geometry.face_width * geometry.pitch_diameter_pinion * geometry.gear_ratio) =
      Except.ok (Ft * (geometry.gear_ratio + 1) /
        (geometry.face_width * geometry.pitch_diameter_pinion * geometry.gear_ratio)) := by
    rw [pyDiv, if_neg hden]
  have harg : ¬(Ft * (geometry.gear_ratio + 1) /
      (geometry.face_width * geometry.pitch_diameter_pinion * geometry.gear_ratio) < 0) := by
    push_neg
    have h1 : 0 ≤ Ft * (geometry.gear_ratio + 1) := mul_nonneg hFt (by linarith)
    have h2 : 0 < geometry.face_width * geometry.pitch_diameter_pinion * geometry.gear_ratio := by
      positivity
    exact div_nonneg h1 (le_of_lt h2)
  have hsq2 : pySqrt (Ft * (geometry.gear_ratio + 1) /
      (geometry.face_width * geometry.pitch_diameter_pinion * geometry.gear_ratio)) =
      Except.ok (Real.sqrt (Ft * (geometry.gear_ratio + 1) /
        (geometry.face_width * geometry.pitch_diameter_pinion * geometry.gear_ratio))) := by
    rw [pySqrt, if_neg harg]
  exact ⟨_, by
    unfold ISO6336Calculator.calculate_contact_stress
    simp only []
    rw [hdiv1]
    simp only [Except_bind_ok]
    rw [hsq1]
    simp only [Except_bind_ok]
    rw [hze]
    simp only [Except_bind_ok]
    rw [hdiv2]
    simp only [Except_bind_ok]
    rw [hsq2]
    rfl⟩

/-- Witness for the amended C4: a 20/100-tooth, module-2 geometry with a
degenerate-but-legal 90° pressure angle, the factory material and
`Ft = 1000`; all hypotheses hold and the call returns the formula value. -/
theorem contact_stress_formula_witness :
    Real.sin (radians (GearGeometry.mk 2 20 100 20 90).pressure_angle) ≠ 0 ∧
      0 ≤ 2 * Real.cos (radians (GearGeometry.mk 2 20 100 20 90).pressure_angle) /
        Real.sin (radians (GearGeometry.mk 2 20 100 20 90).pressure_angle) ∧
      ∃ c₂, emptyCalculator.calculate_contact_stress (GearGeometry.mk 2 20 100 20 90)
        (MaterialProperties.mk "SCM415 침탄강" 280 750 206 0.3 7850) 1000 = Except.ok (c₂,
        Real.sqrt (2 * Real.cos (radians (GearGeometry.mk 2 20 100 20 90).pressure_angle) /
          Real.sin (radians (GearGeometry.mk 2 20 100 20 90).pressure_angle)) *
        Real.sqrt (1 / (Real.pi * ((1 - (0.3 : ℝ) ^ 2) /
            (MaterialProperties.mk "SCM415 침탄강" 280 750 206 0.3 7850).elastic_modulus +
          (1 - (0.3 : ℝ) ^ 2) /
            (MaterialProperties.mk "SCM415 침탄강" 280 750 206 0.3 7850).elastic_modulus))) *
        Real.sqrt 0.9 *
        Real.sqrt (1000 * ((GearGeometry.mk 2 20 100 20 90).gear_ratio + 1) /
          ((GearGeometry.mk 2 20 100 20 90).face_width *
            (GearGeometry.mk 2 20 100 20 90).pitch_diameter_pinion *
            (GearGeometry.mk 2 20 100 20 90).gear_ratio))) := by
  have hang : radians (GearGeometry.mk 2 20 100 20 90).pressure_angle = Real.pi / 2 := by
    show radians 90 = Real.pi / 2
    unfold radians
    ring
  have hsin : Real.sin (radians (GearGeometry.mk 2 20 100 20 90).pressure_angle) ≠ 0 := by
    rw [hang, Real.sin_pi_div_two]
    norm_num
  have hzh : 0 ≤ 2 * Real.cos (radians (GearGeometry.mk 2 20 100 20 90).pressure_angle) /
      Real.sin (radians (GearGeometry.mk 2 20 100 20 90).pressure_angle) := by
    rw [hang, Real.cos_pi_div_two]
    norm_num
  exact ⟨hsin, hzh,
    contact_stress_formula emptyCalculator (GearGeometry.mk 2 20 100 20 90)
      (MaterialProperties.mk "SCM415 침탄강" 280 750 206 0.3 7850) 1000
      (by norm_num) (by norm_num [GearGeometry.pitch_diameter_pinion])
      (by norm_num [GearGeometry.gear_ratio]) hsin (by norm_num) (by norm_num) hzh⟩

namespace ISO6336Calculator

/-- `calculate_safety_factors`: three unguarded Python float divisions,
each followed by its ledger record. -/
noncomputable def calculate_safety_factors (c : ISO6336Calculator)
    (sigma_F_pinion sigma_F_gear sigma_H : ℝ) (material : MaterialProperties) :
    Except PyError (ISO6336Calculator × ℝ × ℝ × ℝ) := do
  let SF_pinion ← pyDiv material.allowable_bending sigma_F_pinion
  let c := c.add_calculation_step "구동기어 굽힘 안전계수 계산" "SF = σF,lim / σF"
    [("σF,lim", material.allowable_bending), ("σF", sigma_F_pinion)]
    "SF = σF,lim/σF" SF_pinion "-" "굽힘 안전계수는 1.5 이상 권장 (ISO 6336-3)"
  let SF_gear ← pyDiv material.allowable_bending sigma_F_gear
  let c := c.add_calculation_step "피동기어 굽힘 안전계수 계산" "SF = σF,lim / σF"
    [("σF,lim", material.allowable_bending), ("σF", sigma_F_gear)]
    "SF = σF,lim/σF" SF_gear "-" "피동기어는 일반적으로 더 높은 안전계수"
  let SH ← pyDiv material.allowable_contact sigma_H
  let c := c.add_calculation_step "접촉 안전계수 계산" "SH = σH,lim / σH"
    [("σH,lim", material.allowable_contact), ("σH", sigma_H)]
    "SH = σH,lim/σH" SH "-" "접촉 안전계수는 1.2 이상 권장 (ISO 6336-2)"
  return (c, SF_pinion, SF_gear, SH)

end ISO6336Calculator

/-- Evaluation of `calculate_safety_factors` when no stress input is zero:
all three divisions succeed. -/
theorem calculate_safety_factors_ok (c : ISO6336Calculator)
    (sigma_F_pinion sigma_F_gear sigma_H : ℝ) (material : MaterialProperties)
    (h1 : sigma_F_pinion ≠ 0) (h2 : sigma_F_gear ≠ 0) (h3 : sigma_H ≠ 0) :
    ∃ c₂, c.calculate_safety_factors sigma_F_pinion sigma_F_gear sigma_H material =
      Except.ok (c₂, material.allowable_bending / sigma_F_pinion,
        material.allowable_bending / sigma_F_gear,
        material.allowable_contact / sigma_H) := by
  have hd1 : pyDiv material.allowable_bending sigma_F_pinion =
      Except.ok (material.allowable_bending / sigma_F_pinion) := by
    rw [pyDiv, if_neg h1]
  have hd2 : pyDiv material.allowable_bending sigma_F_gear =
      Except.ok (material.allowable_bending / sigma_F_gear) := by
    rw [pyDiv, if_neg h2]
  have hd3 : pyDiv material.allowable_contact sigma_H =
      Except.ok (material.allowable_contact / sigma_H) := by
    rw [pyDiv, if_neg h3]
  exact ⟨_, by
    unfold ISO6336Calculator.calculate_safety_factors
    simp only []
    rw [hd1]
    simp only [Except_bind_ok]
    rw [hd2]
    simp only [Except_bind_ok]
    rw [hd3]
    rfl⟩

/-- Evaluation of `calculate_safety_factors` when some stress input is
zero: the first zero denominator raises `ZeroDivisionError`. -/
theorem calculate_safety_factors_zero (c : ISO6336Calculator)
    (sigma_F_pinion sigma_F_gear sigma_H : ℝ) (material : MaterialProperties)
    (h : sigma_F_pinion = 0 ∨ sigma_F_gear = 0 ∨ sigma_H = 0) :
    c.calculate_safety_factors sigma_F_pinion sigma_F_gear sigma_H material =
      Except.error PyError.zeroDivisionError := by
  by_cases h1 : sigma_F_pinion = 0
  · have hd1 : pyDiv material.allowable_bending sigma_F_pinion =
        Except.error PyError.zeroDivisionError := by rw [pyDiv, if_pos h1]
    unfold ISO6336Calculator.calculate_safety_factors
    simp only []
    rw [hd1]
    rfl
  · have hd1 : pyDiv material.allowable_bending sigma_F_pinion =
        Except.ok (material.allowable_bending / sigma_F_pinion) := by
      rw [pyDiv, if_neg h1]
    by_cases h2 : sigma_F_gear = 0
    · have hd2 : pyDiv material.allowable_bending sigma_F_gear =
          Except.error PyError.zeroDivisionError := by rw [pyDiv, if_pos h2]
      unfold ISO6336Calculator.calculate_safety_factors
      simp only []
      rw [hd1]
      simp only [Except_bind_ok]
      rw [hd2]
      rfl
    · have hd2 : pyDiv material.allowable_bending sigma_F_gear =
          Except.ok (material.allowable_bending / sigma_F_gear) := by
        rw [pyDiv, if_neg h2]
      have h3 : sigma_H = 0 := by tauto
      have hd3 : pyDiv material.allowable_contact sigma_H =
          Except.error PyError.zeroDivisionError := by rw [pyDiv, if_pos h3]
      unfold ISO6336Calculator.calculate_safety_factors
      simp only []
      rw [hd1]
      simp only [Except_bind_ok]
      rw [hd2]
      simp only [Except_bind_ok]
      rw [hd3]
      rfl

/-- C5 fails as stated: a negative stress input is not guarded at all.
With `σF_pinion = -1` (and the factory material) the call returns the
triple `(-280, 280, 750)` instead of raising. -/
theorem safety_factors_negative_no_raise :
    ((-1 : ℝ) < 0) ∧
      ∃ c₂, emptyCalculator.calculate_safety_factors (-1) 1 1
        (MaterialProperties.mk "SCM415 침탄강" 280 750 206 0.3 7850) =
        Except.ok (c₂, -280, 280, 750) := by
  refine ⟨by norm_num, ?_⟩
  obtain ⟨c₂, h⟩ := calculate_safety_factors_ok emptyCalculator (-1) 1 1
    (MaterialProperties.mk "SCM415 침탄강" 280 750 206 0.3 7850)
    (by norm_num) (by norm_num) (by norm_num)
  refine ⟨c₂, ?_⟩
  rw [h]
  norm_num

/-- C5 amended: `calculate_safety_factors` returns
`(allowable_bending/σF_pinion, allowable_bending/σF_gear,
allowable_contact/σH)` whenever no stress input is zero (negative inputs
included — they are not guarded and yield negative factors), and raises
(Python `ZeroDivisionError`) exactly when some stress input is zero. -/
theorem safety_factors_behavior (c : ISO6336Calculator)
    (sigma_F_pinion sigma_F_gear sigma_H : ℝ) (material : MaterialProperties) :
    (sigma_F_pinion ≠ 0 → sigma_F_gear ≠ 0 → sigma_H ≠ 0 →
      ∃ c₂, c.calculate_safety_factors sigma_F_pinion sigma_F_gear sigma_H material =
        Except.ok (c₂, material.allowable_bending / sigma_F_pinion,
          material.allowable_bending / sigma_F_gear,
          material.allowable_contact / sigma_H)) ∧
    (sigma_F_pinion = 0 ∨ sigma_F_gear = 0 ∨ sigma_H = 0 →
      c.calculate_safety_factors sigma_F_pinion sigma_F_gear sigma_H material =
        Except.error PyError.zeroDivisionError) :=
  ⟨fun h1 h2 h3 => calculate_safety_factors_ok c sigma_F_pinion sigma_F_gear sigma_H material h1 h2 h3,
   fun h => calculate_safety_factors_zero c sigma_F_pinion sigma_F_gear sigma_H material h⟩

/-- Witness for the amended C5: positive stresses `(2, 4, 5)` give the
quotient triple; a zero pinion stress raises. -/
theorem safety_factors_behavior_witness :
    (∃ c₂, emptyCalculator.calculate_safety_factors 2 4 5
        (MaterialProperties.mk "SCM415 침탄강" 280 750 206 0.3 7850) =
        Except.ok (c₂, (MaterialProperties.mk "SCM415 침탄강" 280 750 206 0.3 7850).allowable_bending / 2,
          (MaterialProperties.mk "SCM415 침탄강" 280 750 206 0.3 7850).allowable_bending / 4,
          (MaterialProperties.mk "SCM415 침탄강" 280 750 206 0.3 7850).allowable_contact / 5)) ∧
      emptyCalculator.calculate_safety_factors 0 4 5
        (MaterialProperties.mk "SCM415 침탄강" 280 750 206 0.3 7850) =
        Except.error PyError.zeroDivisionError :=
  ⟨(safety_factors_behavior emptyCalculator 2 4 5
      (MaterialProperties.mk "SCM415 침탄강" 280 750 206 0.3 7850)).1
      (by norm_num) (by norm_num) (by norm_num),
   (safety_factors_behavior emptyCalculator 0 4 5
      (MaterialProperties.mk "SCM415 침탄강" 280 750 206 0.3 7850)).2
      (Or.inl rfl)⟩

/-- C9: with a positive allowable bending stress, increasing the pinion
bending stress by any positive `Δ` strictly decreases the returned
`SF_pinion`. -/
theorem safety_factor_strictly_decreasing (c c' : ISO6336Calculator)
    (material : MaterialProperties) (sigma_F_pinion Δ sigma_F_gear sigma_H : ℝ)
    (hA : 0 < material.allowable_bending) (hp : 0 < sigma_F_pinion)
    (hΔ : 0 < Δ) (hg : 0 < sigma_F_gear) (hh : 0 < sigma_H) :
    ∃ k₁ k₂ SFp₁ SFg₁ SH₁ SFp₂ SFg₂ SH₂,
      c.calculate_safety_factors sigma_F_pinion sigma_F_gear sigma_H material =
        Except.ok (k₁, SFp₁, SFg₁, SH₁) ∧
      c'.calculate_safety_factors (sigma_F_pinion + Δ) sigma_F_gear sigma_H material =
        Except.ok (k₂, SFp₂, SFg₂, SH₂) ∧
      SFp₂ < SFp₁ := by
  obtain ⟨k₁, e₁⟩ := calculate_safety_factors_ok c sigma_F_pinion sigma_F_gear sigma_H
    material (ne_of_gt hp) (ne_of_gt hg) (ne_of_gt hh)
  obtain ⟨k₂, e₂⟩ := calculate_safety_factors_ok c' (sigma_F_pinion + Δ) sigma_F_gear
    sigma_H material (by positivity) (ne_of_gt hg) (ne_of_gt hh)
  refine ⟨k₁, k₂, _, _, _, _, _, _, e₁, e₂, ?_⟩
  exact div_lt_div_of_pos_left hA hp (by linarith)

/-- Witness for C9: the factory material (`σF,lim = 280`) with stresses
`1` and `1 + 1 = 2`: `280/2 < 280/1`. -/
theorem safety_factor_strictly_decreasing_witness :
    0 < (MaterialProperties.mk "SCM415 침탄강" 280 750 206 0.3 7850).allowable_bending ∧
      ∃ k₁ k₂ SFp₁ SFg₁ SH₁ SFp₂ SFg₂ SH₂,
        emptyCalculator.calculate_safety_factors 1 1 1
          (MaterialProperties.mk "SCM415 침탄강" 280 750 206 0.3 7850) =
          Except.ok (k₁, SFp₁, SFg₁, SH₁) ∧
        emptyCalculator.calculate_safety_factors (1 + 1) 1 1
          (MaterialProperties.mk "SCM415 침탄강" 280 750 206 0.3 7850) =
          Except.ok (k₂, SFp₂, SFg₂, SH₂) ∧
        SFp₂ < SFp₁ :=
  ⟨by norm_num,
    safety_factor_strictly_decreasing emptyCalculator emptyCalculator
      (MaterialProperties.mk "SCM415 침탄강" 280 750 206 0.3 7850) 1 1 1 1
      (by norm_num) (by norm_num) (by norm_num) (by norm_num) (by norm_num)⟩

/-- The argument bundle of one `add_calculation_step` call. -/
structure StepArgs where
  description : String
  formula : String
  vars : List (String × ℝ)
  calculation : String
  result : ℝ
  unit : String
  notes : String

/-- Apply a sequence of `add_calculation_step` calls to a calculator. -/
def runSteps (c : ISO6336Calculator) (l : List StepArgs) : ISO6336Calculator :=
  l.foldl (fun a s => a.add_calculation_step s.description s.formula s.vars
    s.calculation s.result s.unit s.notes) c

/-- Invariant: if the recorded step numbers are `1, …, counter`, they stay
so under any further sequence of recordings, and the counter advances by
the number of calls. -/
theorem runSteps_invariant (l : List StepArgs) (c : ISO6336Calculator)
    (h : c.calculation_steps.map CalculationStep.step_number =
      List.range' 1 c.step_counter) :
    (runSteps c l).calculation_steps.map CalculationStep.step_number =
      List.range' 1 (runSteps c l).step_counter ∧
    (runSteps c l).step_counter = c.step_counter + l.length := by
  induction l generalizing c with
  | nil => simpa [runSteps] using h
  | cons s t ih =>
    have hstep : (c.add_calculation_step s.description s.formula s.vars
        s.calculation s.result s.unit s.notes).calculation_steps.map
          CalculationStep.step_number = List.range' 1 (c.step_counter + 1) := by
      simp [ISO6336Calculator.add_calculation_step, h, List.range'_concat, Nat.add_comm]
    have hctr : (c.add_calculation_step s.description s.formula s.vars
        s.calculation s.result s.unit s.notes).step_counter = c.step_counter + 1 := rfl
    have hmain := ih (c.add_calculation_step s.description s.formula s.vars
      s.calculation s.result s.unit s.notes) hstep
    have hfold : runSteps c (s :: t) = runSteps (c.add_calculation_step s.description
        s.formula s.vars s.calculation s.result s.unit s.notes) t := rfl
    refine ⟨?_, ?_⟩
    · rw [hfold]
      exact hmain.1
    · rw [hfold, hmain.2, hctr]
      simp only [List.length_cons]
      omega

/-- Recording never mutates, removes or reorders previously recorded
steps: the old ledger is a prefix of the new one. -/
theorem runSteps_extends (l : List StepArgs) (c : ISO6336Calculator) :
    c.calculation_steps <+: (runSteps c l).calculation_steps := by
  induction l generalizing c with
  | nil => simp [runSteps]
  | cons s t ih =>
    have h1 : c.calculation_steps <+: (c.add_calculation_step s.description
        s.formula s.vars s.calculation s.result s.unit s.notes).calculation_steps := by
      simp only [ISO6336Calculator.add_calculation_step]
      exact ⟨_, rfl⟩
    have h2 := ih (c.add_calculation_step s.description s.formula s.vars
      s.calculation s.result s.unit s.notes)
    simpa [runSteps] using h1.trans h2

/-- C8: starting from a freshly constructed calculator, any sequence of
`add_calculation_step` calls leaves the ledger's step numbers equal to the
contiguous sequence `1, 2, …, n`, and any later calls only append: the
earlier ledger is a prefix of the later one (no mutation, removal or
reordering). -/
theorem ledger_step_numbers_contiguous :
    ∀ l : List StepArgs,
      (runSteps emptyCalculator l).calculation_steps.map CalculationStep.step_number =
        List.range' 1 l.length ∧
      ∀ l₂, (runSteps emptyCalculator l).calculation_steps <+:
        (runSteps emptyCalculator (l ++ l₂)).calculation_steps := by
  intro l
  constructor
  · have h := runSteps_invariant l emptyCalculator (by simp [emptyCalculator])
    rw [h.1, h.2]
    simp [emptyCalculator]
  · intro l₂
    have hsplit : runSteps emptyCalculator (l ++ l₂) =
        runSteps (runSteps emptyCalculator l) l₂ := by
      simp [runSteps, List.foldl_append]
    rw [hsplit]
    exact runSteps_extends l₂ _

/-- `create_standard_gear_system`: derives `teeth_gear` by Python `int()`
truncation of `teeth_pinion * gear_ratio`, fixes `face_width = module·10`
and a 20° pressure angle, derives the power and the SCM415 material. -/
noncomputable def create_standard_gear_system (module : ℝ) (teeth_pinion : ℤ)
    (gear_ratio : ℝ) (input_torque input_speed : ℝ) :
    GearGeometry × LoadConditions × MaterialProperties :=
  let teeth_gear := pyIntTrunc ((teeth_pinion : ℝ) * gear_ratio)
  let geometry := GearGeometry.mk module teeth_pinion teeth_gear (module * 10) 20.0
  let power := input_torque * input_speed * 2 * Real.pi / 60 / 1000
  let load := LoadConditions.mk input_torque input_speed power
  let material := MaterialProperties.mk "SCM415 침탄강" 280.0 750.0 206.0 0.3 7850.0
  (geometry, load, material)

/-- C10: the factory computes `teeth_gear` as the truncation toward zero
of `teeth_pinion × gear_ratio`, fixes `face_width = 10·module` and
`pressure_angle = 20`; consequently a non-integer product loses its
fractional part and the resulting geometry's `gear_ratio` can differ from
the requested one, e.g. 7 pinion teeth at requested ratio 5/2 give
`teeth_gear = 17` and actual ratio `17/7 ≠ 5/2`. -/
theorem create_standard_gear_system_spec :
    (∀ (module : ℝ) (teeth_pinion : ℤ) (gear_ratio input_torque input_speed : ℝ),
      (create_standard_gear_system module teeth_pinion gear_ratio input_torque
          input_speed).1.teeth_gear = pyIntTrunc ((teeth_pinion : ℝ) * gear_ratio) ∧
      (create_standard_gear_system module teeth_pinion gear_ratio input_torque
          input_speed).1.face_width = 10 * module ∧
      (create_standard_gear_system module teeth_pinion gear_ratio input_torque
          input_speed).1.pressure_angle = 20 ∧
      (create_standard_gear_system module teeth_pinion gear_ratio input_torque
          input_speed).1.module = module ∧
      (create_standard_gear_system module teeth_pinion gear_ratio input_torque
          input_speed).1.teeth_pinion = teeth_pinion) ∧
    (create_standard_gear_system 1 7 (5 / 2) 1 1).1.teeth_gear = 17 ∧
    (create_standard_gear_system 1 7 (5 / 2) 1 1).1.gear_ratio ≠ 5 / 2 := by
  have htr : pyIntTrunc (((7 : ℤ) : ℝ) * (5 / 2)) = 17 := by
    rw [pyIntTrunc, if_pos (by norm_num)]
    rw [Int.floor_eq_iff]
    constructor
    · norm_num
    · norm_num
  refine ⟨?_, ?_, ?_⟩
  · intro module teeth_pinion gear_ratio input_torque input_speed
    refine ⟨rfl, by simp [create_standard_gear_system]; ring, ?_, rfl, rfl⟩
    norm_num [create_standard_gear_system]
  · show pyIntTrunc (((7 : ℤ) : ℝ) * (5 / 2)) = 17
    exact htr
  · show ((pyIntTrunc (((7 : ℤ) : ℝ) * (5 / 2)) : ℤ) : ℝ) / ((7 : ℤ) : ℝ) ≠ 5 / 2
    rw [htr]
    norm_num
